import Mathlib

set_option maxRecDepth 16000

/-!
Verification development for the DefraDB Python client
(`src/defradb/defradb.py`).  The definitions below are a shallow
embedding of the client's pure computations: JSON serialization as
performed by the standard `json.dumps` encoder, the quote-replacement
escaping used by `create_doc` / `dict_to_create_query` /
`dict_to_update_query`, the GraphQL string-literal lexical rules used
by the outer query language, the base-58 identifier codec used by the
replicator operations, Python's `str()` rendering of `bytes` values,
the multiaddress-to-host:port translation, and the schema-load error
screening loop.  Documents are modelled as ordered string-to-string
mappings, which covers every behaviour the claims exercise.
-/

/-- A document: ordered mapping of field names to string values, as the
caller supplies to `create_doc` and `dict_to_create_query`. -/
abbrev Doc := List (String × String)

/-- Lowercase hexadecimal digit, as produced by CPython's
json encoder when it emits a backslash-u escape. -/
def hexDigitChar (n : Nat) : Char :=
  if n < 10 then Char.ofNat (48 + n) else Char.ofNat (87 + n)

/-- A 6-character JSON escape sequence, backslash-u plus four lowercase
hex digits, for a code unit below 0x10000. -/
def uEscape4 (n : Nat) : List Char :=
  ['\\', 'u', hexDigitChar (n / 4096 % 16), hexDigitChar (n / 256 % 16),
   hexDigitChar (n / 16 % 16), hexDigitChar (n % 16)]

/-- Escape of a single character by CPython's `json.dumps`.  With
`ea = true` (`ensure_ascii=True`, the default used by `create_doc`)
every character outside 0x20..0x7E is escaped, non-BMP code points as a
surrogate pair.  With `ea = false` (`ensure_ascii=False`, used by
`dict_to_create_query` and `dict_to_update_query`) only the quote, the
backslash and control characters below 0x20 are escaped. -/
def jsonEscapeChar (ea : Bool) (c : Char) : List Char :=
  if c.toNat = 34 then ['\\', '"']
  else if c.toNat = 92 then ['\\', '\\']
  else if c.toNat = 8 then ['\\', 'b']
  else if c.toNat = 9 then ['\\', 't']
  else if c.toNat = 10 then ['\\', 'n']
  else if c.toNat = 12 then ['\\', 'f']
  else if c.toNat = 13 then ['\\', 'r']
  else if c.toNat < 32 then uEscape4 c.toNat
  else if ea = true ∧ 126 < c.toNat then
    if c.toNat < 65536 then uEscape4 c.toNat
    else uEscape4 (55296 + (c.toNat - 65536) / 1024) ++
         uEscape4 (56320 + (c.toNat - 65536) % 1024)
  else [c]

/-- JSON string literal for `s`: quote, escaped characters, quote. -/
def jsonQuoteStr (ea : Bool) (s : String) : String :=
  "\"" ++ String.mk (List.flatten (s.toList.map (jsonEscapeChar ea))) ++ "\""

/-- The `"key": "value"` items of a JSON object, in insertion order, as
`json.dumps` renders a dict. -/
def jsonItems (ea : Bool) : Doc → List String
  | [] => []
  | kv :: rest => (jsonQuoteStr ea kv.1 ++ ": " ++ jsonQuoteStr ea kv.2) :: jsonItems ea rest

/-- `json.dumps` of a string-to-string dict, with the default
separators: items joined by a comma and a space inside braces. -/
def jsonDumps (ea : Bool) (d : Doc) : String :=
  "\x7b" ++ String.intercalate ", " (jsonItems ea d) ++ "\x7d"

/-- The `.replace` step of the source: every double-quote character of
the serialized JSON is replaced by a backslash-quote pair
(`.replace(chr(34), backslash+chr(34))`); nothing else is touched. -/
def escapeQuotes (s : String) : String :=
  String.mk (List.flatten (s.toList.map (fun c => if c = '"' then ['\\', '"'] else [c])))

/-- The data string `create_doc` embeds in its payload:
`json.dumps(data)` (ASCII mode) followed by quote replacement. -/
def createDocDataString (d : Doc) : String :=
  escapeQuotes (jsonDumps true d)

/-- The data string `dict_to_create_query` (and `dict_to_update_query`)
embeds: `json.dumps(data, ensure_ascii=False)` followed by the same
quote replacement. -/
def dictToCreateDataString (d : Doc) : String :=
  escapeQuotes (jsonDumps false d)

/-- Text of `create_doc`'s f-string up to and including the opening
quote of the embedded data literal. -/
def createDocPre (typename : String) : String :=
  "mutation \x7b\n            create_" ++ typename ++ " (data: \""

/-- Text of `create_doc`'s f-string from the closing quote of the
embedded data literal to the end. -/
def createDocPost : String :=
  "\") \x7b\n                _key\n            \x7d\n        \x7d"

/-- The full mutation request text built by `create_doc`. -/
def create_doc_request (typename : String) (d : Doc) : String :=
  createDocPre typename ++ createDocDataString d ++ createDocPost

/-- Text of `dict_to_create_query`'s f-string up to and including the
opening quote of the embedded data literal. -/
def dictToCreatePre (schema_type : String) : String :=
  "\n        mutation \x7b\n            create_" ++ schema_type ++ "(data: \""

/-- Text of `dict_to_create_query`'s f-string after the data string. -/
def dictToCreatePost : String :=
  "\") \x7b\n                _key\n            \x7d\n        \x7d\n    "

/-- The full mutation request text built by `dict_to_create_query`. -/
def dict_to_create_query_text (schema_type : String) (d : Doc) : String :=
  dictToCreatePre schema_type ++ dictToCreateDataString d ++ dictToCreatePost

/-- Text of `dict_to_update_query`'s f-string up to and including the
opening quote of the embedded data literal. -/
def dictToUpdatePre (schema_type : String) : String :=
  "\n        mutation \x7b\n            update_" ++ schema_type ++ "(data: \""

/-- The full mutation request text built by `dict_to_update_query`. -/
def dict_to_update_query_text (schema_type : String) (d : Doc) : String :=
  dictToUpdatePre schema_type ++ dictToCreateDataString d ++ dictToCreatePost

/-- The single-character escapes of a GraphQL string literal. -/
def gqlEscChar : Char → Option Char
  | '"' => some '"'
  | '\\' => some '\\'
  | '/' => some '/'
  | 'b' => some (Char.ofNat 8)
  | 'f' => some (Char.ofNat 12)
  | 'n' => some (Char.ofNat 10)
  | 'r' => some (Char.ofNat 13)
  | 't' => some (Char.ofNat 9)
  | _ => none

/-- Value of one hexadecimal digit character, if any. -/
def hexVal (c : Char) : Option Nat :=
  if 48 ≤ c.toNat ∧ c.toNat ≤ 57 then some (c.toNat - 48)
  else if 97 ≤ c.toNat ∧ c.toNat ≤ 102 then some (c.toNat - 87)
  else if 65 ≤ c.toNat ∧ c.toNat ≤ 70 then some (c.toNat - 55)
  else none

/-- Lexer for the body of a GraphQL single-quoted string literal,
starting just after the opening quote: consumes characters up to the
first unescaped closing quote and returns the unescaped content
together with the remaining input.  An unterminated literal, a raw
line terminator, or an invalid escape yields `none`. -/
def gqlParseBody : List Char → Option (List Char × List Char)
  | [] => none
  | '"' :: rest => some ([], rest)
  | '\\' :: 'u' :: h1 :: h2 :: h3 :: h4 :: rest =>
    match hexVal h1, hexVal h2, hexVal h3, hexVal h4 with
    | some a, some b, some c, some d =>
      (gqlParseBody rest).map
        (fun pr => (Char.ofNat (a * 4096 + b * 256 + c * 16 + d) :: pr.1, pr.2))
    | _, _, _, _ => none
  | '\\' :: e :: rest =>
    match gqlEscChar e with
    | some d => (gqlParseBody rest).map (fun pr => (d :: pr.1, pr.2))
    | none => none
  | ['\\'] => none
  | c :: rest =>
    if c.toNat = 10 ∨ c.toNat = 13 then none
    else (gqlParseBody rest).map (fun pr => (c :: pr.1, pr.2))

/-- Whether `pre` is a prefix of `l` (character lists). -/
def leadsWith : List Char → List Char → Bool
  | [], _ => true
  | _ :: _, [] => false
  | a :: as, b :: bs => a = b && leadsWith as bs

/-- Python's substring containment test (`needle in haystack`) on
character lists: some suffix of the haystack starts with the needle. -/
def containsSubList (needle : List Char) : List Char → Bool
  | [] => needle.isEmpty
  | c :: rest => leadsWith needle (c :: rest) || containsSubList needle rest

/-- Python's `needle in haystack` on strings. -/
def containsSub (needle hay : String) : Bool :=
  containsSubList needle.toList hay.toList

/-- One error object of a schema-load JSON response: the client only
reads its `message` field. -/
structure SchemaError where
  message : String

/-- A parsed schema-load JSON response: optional `data`, and the
`errors` list when the `errors` key is present. -/
structure SchemaResponse where
  data : Option String
  errors : Option (List SchemaError)

/-- The screening loop of `load_schema` over the `errors` list: an
error whose message contains `schema type already exists` is logged and
skipped; the first other error is raised. -/
def checkSchemaErrors : List SchemaError → Except SchemaError Unit
  | [] => Except.ok ()
  | e :: rest =>
    if containsSub "schema type already exists" e.message then checkSchemaErrors rest
    else Except.error e

/-- The pure core of `load_schema` applied to the parsed response: if
no `errors` key is present, or every listed error is the idempotent
already-exists one, the whole parsed response is returned; otherwise
the first non-idempotent error is raised (`SchemaLoadError`). -/
def load_schema (resp : SchemaResponse) : Except SchemaError SchemaResponse :=
  match resp.errors with
  | none => Except.ok resp
  | some errs => (checkSchemaErrors errs).map (fun _ => resp)

/-- The Bitcoin base-58 alphabet used by the `base58` package. -/
def b58Alphabet : List Char :=
  "123456789ABCDEFGHJKLMNPQRSTUVWXYZabcdefghijkmnopqrstuvwxyz".toList

/-- Base-58 digit character for a value below 58. -/
def b58digit (n : Nat) : Char := b58Alphabet.getD n '1'

/-- Big-endian byte sequence read as a natural number
(`int.from_bytes(v, byteorder=big)`). -/
def bytesToNat (bs : List Nat) : Nat := bs.foldl (fun a b => a * 256 + b) 0

/-- Fuelled base-58 digit expansion of a natural number (most
significant digit first); the fuel only bounds the recursion. -/
def natToB58Fuel : Nat → Nat → List Char → List Char
  | 0, _, acc => acc
  | fuel + 1, n, acc =>
    if n = 0 then acc else natToB58Fuel fuel (n / 58) (b58digit (n % 58) :: acc)

/-- `b58encode_int` with `default_one=False`: zero encodes to the empty
digit string. -/
def natToB58 (n : Nat) : List Char := natToB58Fuel n n []

/-- `base58.b58encode` on a byte sequence: leading zero bytes become
leading `1` characters, the rest is the base-58 expansion of the
big-endian value. -/
def b58encodeBytes (bs : List Nat) : List Char :=
  let stripped := bs.dropWhile (fun b => b = 0)
  List.replicate (bs.length - stripped.length) '1' ++ natToB58 (bytesToNat stripped)

/-- Index of a character in the base-58 alphabet, if it is valid. -/
def b58CharVal (c : Char) : Option Nat :=
  List.findIdx? (fun x => x = c) b58Alphabet

/-- Fuelled big-endian byte expansion of a natural number. -/
def natToBytesFuel : Nat → Nat → List Nat → List Nat
  | 0, _, acc => acc
  | fuel + 1, n, acc =>
    if n = 0 then acc else natToBytesFuel fuel (n / 256) (n % 256 :: acc)

/-- Big-endian bytes of a natural number; zero gives the empty
sequence, matching the divmod loop of `b58decode`. -/
def natToBytes (n : Nat) : List Nat := natToBytesFuel n n []

/-- ASCII whitespace stripped by `bytes.rstrip()`. -/
def pyWhitespace (c : Char) : Bool :=
  c.toNat = 32 ∨ c.toNat = 9 ∨ c.toNat = 10 ∨ c.toNat = 13 ∨ c.toNat = 11 ∨ c.toNat = 12

/-- `base58.b58decode` on a string: strip trailing whitespace, turn
leading `1` characters into leading zero bytes, read the rest as a
base-58 number; an alphabet-invalid character raises `ValueError`
(modelled as `none`). -/
def b58decodeStr (s : String) : Option (List Nat) :=
  let cs := (s.toList.reverse.dropWhile pyWhitespace).reverse
  let stripped := cs.dropWhile (fun c => c = '1')
  let ones := cs.length - stripped.length
  (stripped.foldl
      (fun acc c => acc.bind (fun a => (b58CharVal c).map (fun v => a * 58 + v)))
      (some 0)).map
    (fun n => List.replicate ones 0 ++ natToBytes n)

/-- Quote character chosen by CPython's `bytes.__repr__`: double quote
when the bytes contain a single quote but no double quote, otherwise a
single quote. -/
def pyBytesReprQuote (bs : List Nat) : Char :=
  if bs.contains 39 ∧ ¬ bs.contains 34 then '"' else Char.ofNat 39

/-- Rendering of one byte inside `bytes.__repr__` with the given quote
character: backslash and the active quote are escaped, tab/newline/
carriage-return use their named escapes, other printable ASCII bytes
appear verbatim, everything else as a backslash-x hex pair. -/
def pyByteReprChar (quote : Char) (b : Nat) : List Char :=
  if b = 92 then ['\\', '\\']
  else if b = 9 then ['\\', 't']
  else if b = 10 then ['\\', 'n']
  else if b = 13 then ['\\', 'r']
  else if b = quote.toNat then ['\\', quote]
  else if 32 ≤ b ∧ b ≤ 126 then [Char.ofNat b]
  else ['\\', 'x', hexDigitChar (b / 16), hexDigitChar (b % 16)]

/-- Python's `str()` of a `bytes` value, i.e. its repr: a `b` followed
by the quoted, escaped byte text. -/
def pyStrOfBytes (bs : List Nat) : String :=
  let q := pyBytesReprQuote bs
  String.mk ('b' :: q :: List.flatten (bs.map (pyByteReprChar q)) ++ [q])

/-- The identifier encoding actually performed by `set_replicator` and
`delete_replicator` on RPC response bytes:
`str(base58.b58encode(response.peerID))` — note `str()` of the `bytes`
returned by `b58encode`, not `.decode()`. -/
def encodeIdentifier (bs : List Nat) : String :=
  pyStrOfBytes ((b58encodeBytes bs).map Char.toNat)

/-- The identifier decoding performed on caller-supplied peer-id
strings (`base58.b58decode(peerID)`). -/
def decodeIdentifier (s : String) : Option (List Nat) := b58decodeStr s

/-- The pure core of `delete_replicator`: decode the input peer-id
string to bytes (a malformed string raises before anything is sent),
hand them to the remote operation, and render the response bytes with
`str(base58.b58encode(...))`. -/
def delete_replicator (peerID : String) (remote : List Nat → List Nat) : Option String :=
  (b58decodeStr peerID).map (fun bs => encodeIdentifier (remote bs))

/-- One protocol segment of a multiaddress: protocol code and value
(models the parsed form delivered by the external `multiaddr`
library). -/
structure MaddrSegment where
  proto : Nat
  value : String

/-- A parsed composable peer address: its ordered protocol segments. -/
abbrev Multiaddr := List MaddrSegment

/-- Protocol code of IPv4 (`multiaddr.protocols.P_IP4`). -/
def P_IP4 : Nat := 4

/-- Protocol code of TCP (`multiaddr.protocols.P_TCP`). -/
def P_TCP : Nat := 6

/-- The `multiaddr` library's `value_for_protocol`: value of the first
segment carrying the requested protocol, or a `ProtocolLookupError`
(modelled as `none`) when the address has no such segment. -/
def value_for_protocol (m : Multiaddr) (p : Nat) : Option String :=
  (m.find? (fun s => s.proto == p)).map MaddrSegment.value

/-- Failure of the address decomposition (the spec's
`AddressFormatError`; the source surfaces the library's
`ProtocolLookupError` for the missing protocol). -/
inductive AddressFormatError where
  | protocolNotFound (p : Nat)

/-- The source's `_multiaddr_to_porthost` after parsing: look up the
IPv4 value, then the TCP value, and join them with a colon. -/
def multiaddr_to_porthost (m : Multiaddr) : Except AddressFormatError String :=
  match value_for_protocol m P_IP4 with
  | none => Except.error (AddressFormatError.protocolNotFound P_IP4)
  | some ip =>
    match value_for_protocol m P_TCP with
    | none => Except.error (AddressFormatError.protocolNotFound P_TCP)
    | some port => Except.ok (ip ++ ":" ++ port)

/-- The client configuration dataclass: HTTP base URL, RPC multiaddr
text, URL scheme.  Assigned once in `DefraClient.__init__`. -/
structure DefraConfig where
  api_url : String
  tcp_multiaddr : String
  scheme : String

/-- One replicator record as decoded from the RPC response:
identifier bytes, address bytes, replicated schema names. -/
structure RepRecord where
  id : List Nat
  addrs : List Nat
  schemas : List String

/-- The remote node's responses, supplied as an oracle: the client
itself holds no state beyond its configuration. -/
structure RemoteWorld where
  queryResponse : String
  schemaResponse : SchemaResponse
  rpcPeerID : List Nat
  replicators : List RepRecord
  peeridResponse : String

/-- The public operations of the client facade. -/
inductive ClientOp where
  | request (q : String)
  | loadSchema (schema : String)
  | createDoc (typename : String) (data : Doc)
  | setReplicator (collections : List String) (maddrBytes : List Nat)
  | deleteReplicator (peerID : String)
  | getAllReplicators
  | getPeerid

/-- Observable outcome of one client operation: the endpoint it
addressed, the body it sent, and the decoded response. -/
inductive OpResult where
  | http (url : String) (body : String) (response : String)
  | schemaLoad (url : String) (body : String) (response : Except SchemaError SchemaResponse)
  | rpc (target : String) (response : String)
  | rpcTry (target : String) (response : Option String)
  | rpcList (target : String) (response : List (String × List Nat × List String))
  | peerid (url : String) (response : String)

/-- One client operation as a step on the client state: each branch
builds its request from the configuration exactly as the source does
and pairs the outcome with the configuration the client holds
afterwards.  No statement of any source method assigns to `self.cfg`
or its fields, so the post-state is the input configuration. -/
def clientStep (cfg : DefraConfig) (op : ClientOp) (w : RemoteWorld) :
    OpResult × DefraConfig :=
  match op with
  | ClientOp.request q =>
    (OpResult.http (cfg.scheme ++ cfg.api_url ++ "graphql") q w.queryResponse, cfg)
  | ClientOp.loadSchema s =>
    (OpResult.schemaLoad (cfg.scheme ++ cfg.api_url ++ "schema/load") s
      (load_schema w.schemaResponse), cfg)
  | ClientOp.createDoc t d =>
    (OpResult.http (cfg.scheme ++ cfg.api_url ++ "graphql")
      (create_doc_request t d) w.queryResponse, cfg)
  | ClientOp.setReplicator _ _ =>
    (OpResult.rpc cfg.tcp_multiaddr (encodeIdentifier w.rpcPeerID), cfg)
  | ClientOp.deleteReplicator pid =>
    (OpResult.rpcTry cfg.tcp_multiaddr
      (delete_replicator pid (fun _ => w.rpcPeerID)), cfg)
  | ClientOp.getAllReplicators =>
    (OpResult.rpcList cfg.tcp_multiaddr
      (w.replicators.map (fun r => (String.mk (b58encodeBytes r.id), r.addrs, r.schemas))),
     cfg)
  | ClientOp.getPeerid =>
    (OpResult.peerid (cfg.scheme ++ cfg.api_url ++ "peerid") w.peeridResponse, cfg)

/-- Result of `create_doc`'s payload construction paired with the value
the caller's `data` argument holds after the call.  The body only reads
`data` (`json.dumps`, f-string interpolation); it contains no mutating
statement, so the post-call value is the argument itself. -/
def create_doc_effect (typename : String) (d : Doc) : String × Doc :=
  (create_doc_request typename d, d)

/-- Result of `dict_to_create_query` paired with the post-call value of
the caller's `data` argument (the body only reads `data`). -/
def dict_to_create_query_effect (schema_type : String) (d : Doc) : String × Doc :=
  (dict_to_create_query_text schema_type d, d)

/-- Result of `dict_to_update_query` paired with the post-call value of
the caller's `data` argument (the body only reads `data`). -/
def dict_to_update_query_effect (schema_type : String) (d : Doc) : String × Doc :=
  (dict_to_update_query_text schema_type d, d)

/-- Result of `set_replicator` paired with the post-call value of the
caller's `collections` argument: the list is only read into the
protobuf request object, never mutated. -/
def set_replicator_effect (collections : List String) (respPeerID : List Nat) :
    String × List String :=
  (encodeIdentifier respPeerID, collections)

/-- Every character of the string has a code point at most 0x7E. -/
def strAsciiStrict (s : String) : Bool :=
  s.toList.all (fun c => c.toNat ≤ 126)

/-- Every character of every key and value of the document has a code
point at most 0x7E. -/
def docAsciiStrict (d : Doc) : Bool :=
  d.all (fun kv => strAsciiStrict kv.1 && strAsciiStrict kv.2)

/-- A document whose value is the single character DEL (U+007F): an
ASCII character that the two JSON serializations treat differently. -/
def docDel : Doc := [("a", String.mk [Char.ofNat 127])]

/-- A document whose value is the single non-ASCII character U+00E9. -/
def docNonAscii : Doc := [("a", String.mk [Char.ofNat 233])]

theorem jsonEscapeChar_ascii (c : Char) (h : c.toNat ≤ 126) :
    jsonEscapeChar true c = jsonEscapeChar false c := by
  have h2 : ¬ (126 < c.toNat) := by omega
  simp [jsonEscapeChar, h2]

theorem jsonQuoteStr_ascii (s : String) (h : strAsciiStrict s = true) :
    jsonQuoteStr true s = jsonQuoteStr false s := by
  have hl : ∀ c ∈ s.toList, c.toNat ≤ 126 := by
    intro c hc
    have hb := (List.all_eq_true.mp h) c hc
    exact of_decide_eq_true hb
  have hmap : s.data.map (jsonEscapeChar true) = s.data.map (jsonEscapeChar false) :=
    List.map_congr_left (fun c hc => jsonEscapeChar_ascii c (hl c hc))
  simp [jsonQuoteStr, hmap]

theorem jsonItems_ascii (d : Doc) (h : docAsciiStrict d = true) :
    jsonItems true d = jsonItems false d := by
  induction d with
  | nil => rfl
  | cons kv rest ih =>
    simp only [docAsciiStrict] at h
    have hkv := (List.all_eq_true.mp h) kv (by simp)
    have h1 : strAsciiStrict kv.1 = true ∧ strAsciiStrict kv.2 = true := by
      simpa [Bool.and_eq_true] using hkv
    have h2 : docAsciiStrict rest = true := by
      simp only [docAsciiStrict]
      apply List.all_eq_true.mpr
      intro x hx
      exact (List.all_eq_true.mp h) x (by simp [hx])
    simp [jsonItems, jsonQuoteStr_ascii _ h1.1, jsonQuoteStr_ascii _ h1.2, ih h2]

theorem jsonDumps_ascii (d : Doc) (h : docAsciiStrict d = true) :
    jsonDumps true d = jsonDumps false d := by
  simp [jsonDumps, jsonItems_ascii d h]

theorem checkSchemaErrors_ok_of_all (errs : List SchemaError)
    (h : ∀ e ∈ errs, containsSub "schema type already exists" e.message = true) :
    checkSchemaErrors errs = Except.ok () := by
  induction errs with
  | nil => rfl
  | cons e rest ih =>
    have he := h e (by simp)
    simp only [checkSchemaErrors, he, if_true]
    exact ih (fun x hx => h x (by simp [hx]))

theorem checkSchemaErrors_first_error (errs : List SchemaError) (e : SchemaError)
    (h : List.find? (fun er => ! containsSub "schema type already exists" er.message) errs
          = some e) :
    checkSchemaErrors errs = Except.error e := by
  induction errs with
  | nil => simp [List.find?] at h
  | cons x rest ih =>
    rw [List.find?_cons] at h
    cases hx : containsSub "schema type already exists" x.message with
    | true =>
      simp [hx] at h
      simp only [checkSchemaErrors, hx, if_true]
      exact ih h
    | false =>
      simp [hx] at h
      subst h
      simp [checkSchemaErrors, hx]

/-- C1: the claim fails on the code and the code contradicts its own
purpose.  For the document mapping `a` to the three-character value
`x"y` (the spec's own example), the data string `create_doc` embeds is
built by `json.dumps` followed by a bare quote replacement that never
escapes the backslash `json.dumps` introduced; reading the embedded
literal under the outer query language's string-literal rules, the
backslash pair unescapes to a backslash and the very next quote
terminates the literal early, so the unescaped content is the
truncated `\x7b"a": "x` plus a backslash — not the JSON serialization
of the document — and the leftover `y\"\x7d` leaks outside the
literal, breaking the mutation wrapper. -/
theorem createDoc_quote_escaping_bug :
    gqlParseBody ((createDocDataString [("a", "x\"y")]) ++ createDocPost).toList
      = some ("\x7b\"a\": \"x\\".toList, ("y\\\"\x7d" ++ createDocPost).toList)
  ∧ "\x7b\"a\": \"x\\".toList ≠ (jsonDumps true [("a", "x\"y")]).toList := by
  decide

/-- C2: the claim fails on the code.  The encoding actually applied to
RPC response bytes is `str(base58.b58encode(...))`, i.e. the Python
repr of a `bytes` value: for identifier bytes `[1]` it produces the
string `b` + quote + `2` + quote instead of `2`, and decoding that
string with `base58.b58decode` (the decoding used on caller input)
fails on the quote character, so decode ∘ encode does not return the
original bytes. -/
theorem identifier_encode_decode_bug :
    encodeIdentifier [1] = "b'2'"
  ∧ decodeIdentifier (encodeIdentifier [1]) = none := by
  decide

/-- C3: the claim fails on the code.  With a remote that echoes back
exactly the bytes it was sent, `delete_replicator` on the valid
base-58 peer-id string `2` returns `b` + quote + `2` + quote — the
`str()` of the `bytes` value returned by `b58encode` — and not the
input string `2`. -/
theorem deleteReplicator_echo_bug :
    delete_replicator "2" (fun bs => bs) = some "b'2'"
  ∧ delete_replicator "2" (fun bs => bs) ≠ some "2" := by
  decide

/-- C4: for every composable address holding an IPv4 segment and a TCP
segment, the translation returns exactly `host:port` built from the
first such segments (extra segments are ignored); an address lacking
either segment fails with the address-format error. -/
theorem multiaddrToPorthost_spec (m : Multiaddr) :
    (∀ ip port, value_for_protocol m P_IP4 = some ip →
        value_for_protocol m P_TCP = some port →
        multiaddr_to_porthost m = Except.ok (ip ++ ":" ++ port))
  ∧ ((value_for_protocol m P_IP4 = none ∨ value_for_protocol m P_TCP = none) →
      ∃ e, multiaddr_to_porthost m = Except.error e) := by
  constructor
  · intro ip port hip hport
    simp [multiaddr_to_porthost, hip, hport]
  · intro h
    rcases h with h | h
    · simp [multiaddr_to_porthost, h]
    · cases hip : value_for_protocol m P_IP4 with
      | none => simp [multiaddr_to_porthost, hip]
      | some ip => simp [multiaddr_to_porthost, hip, h]

/-- Witness for C4: the address IPv4 `127.0.0.1` / TCP `9161` with an
extra overlay segment translates to exactly `127.0.0.1:9161`, and an
address lacking the TCP segment fails. -/
theorem multiaddrToPorthost_spec_witness :
    multiaddr_to_porthost [⟨4, "127.0.0.1"⟩, ⟨6, "9161"⟩, ⟨480, "extra"⟩]
      = Except.ok "127.0.0.1:9161"
  ∧ ∃ e, multiaddr_to_porthost [⟨4, "127.0.0.1"⟩] = Except.error e := by
  constructor
  · exact (multiaddrToPorthost_spec _).1 "127.0.0.1" "9161" rfl rfl
  · exact (multiaddrToPorthost_spec _).2 (Or.inr rfl)

/-- C5: when every error of the schema-load response's error list has a
message containing `schema type already exists`, `load_schema` does
not raise and returns successfully — hence re-loading the same schema
is tolerated. -/
theorem loadSchema_idempotent_ok (resp : SchemaResponse) (errs : List SchemaError)
    (h1 : resp.errors = some errs)
    (h2 : ∀ e ∈ errs, containsSub "schema type already exists" e.message = true) :
    ∃ r, load_schema resp = Except.ok r := by
  refine ⟨resp, ?_⟩
  simp [load_schema, h1, checkSchemaErrors_ok_of_all errs h2, Except.map]

/-- Witness for C5: a response whose only error is the already-exists
one is returned successfully. -/
theorem loadSchema_idempotent_ok_witness :
    ∃ r, load_schema ⟨some "ok", some [⟨"schema type already exists"⟩]⟩ = Except.ok r :=
  loadSchema_idempotent_ok _ [⟨"schema type already exists"⟩] rfl (by decide)

/-- C6: when the error list holds at least one error whose message does
not contain `schema type already exists`, `load_schema` raises with the
first such error in list order, regardless of idempotent errors also
present. -/
theorem loadSchema_first_nonidempotent (resp : SchemaResponse) (errs : List SchemaError)
    (e : SchemaError) (h1 : resp.errors = some errs)
    (h2 : List.find? (fun er => ! containsSub "schema type already exists" er.message) errs
          = some e) :
    load_schema resp = Except.error e := by
  simp [load_schema, h1, checkSchemaErrors_first_error errs e h2, Except.map]

/-- Witness for C6: with an idempotent error first and two
non-idempotent errors after it, the first non-idempotent one is
raised. -/
theorem loadSchema_first_nonidempotent_witness :
    load_schema ⟨none, some [⟨"schema type already exists for X"⟩, ⟨"parse failure"⟩,
        ⟨"another failure"⟩]⟩
      = Except.error ⟨"parse failure"⟩ :=
  loadSchema_first_nonidempotent _ _ _ rfl rfl

/-- C7: every client operation leaves every field of the configuration
(`api_url`, `tcp_multiaddr`, `scheme`) unchanged: the configuration is
set at construction and only read afterwards. -/
theorem clientStep_preserves_config (cfg : DefraConfig) (op : ClientOp) (w : RemoteWorld) :
    (clientStep cfg op w).2.api_url = cfg.api_url ∧
    (clientStep cfg op w).2.tcp_multiaddr = cfg.tcp_multiaddr ∧
    (clientStep cfg op w).2.scheme = cfg.scheme := by
  cases op <;> exact ⟨rfl, rfl, rfl⟩

/-- C8 counterexample: the claim as stated is false.  For the document
whose value is the single character DEL (U+007F), both JSON
serializations consist exclusively of ASCII characters (code points at
most 127), yet the data string embedded by `create_doc` differs from
the one embedded by `dict_to_create_query`: ASCII mode escapes DEL as
a backslash-u sequence while `ensure_ascii=False` leaves it verbatim. -/
theorem dataString_ascii_counterexample :
    ((jsonDumps true docDel).toList.all (fun c => c.toNat ≤ 127) = true ∧
     (jsonDumps false docDel).toList.all (fun c => c.toNat ≤ 127) = true) ∧
    createDocDataString docDel ≠ dictToCreateDataString docDel := by
  decide

/-- C8 (amended): for every document all of whose key and value
characters have code points at most 0x7E (strictly below DEL), the
escaped data string embedded by `create_doc` equals the one embedded by
`dict_to_create_query`; and for the document holding the non-ASCII
character U+00E9 the two embedded strings differ. -/
theorem dataString_agreement (d : Doc) (h : docAsciiStrict d = true) :
    createDocDataString d = dictToCreateDataString d ∧
    createDocDataString docNonAscii ≠ dictToCreateDataString docNonAscii := by
  constructor
  · simp [createDocDataString, dictToCreateDataString, jsonDumps_ascii d h]
  · decide

/-- Witness for C8: at a concrete plain-ASCII document the two data
strings agree (and the non-ASCII document separates them). -/
theorem dataString_agreement_witness :
    docAsciiStrict [("a", "b")] = true ∧
    (createDocDataString [("a", "b")] = dictToCreateDataString [("a", "b")] ∧
     createDocDataString docNonAscii ≠ dictToCreateDataString docNonAscii) :=
  ⟨by decide, dataString_agreement [("a", "b")] (by decide)⟩

/-- C9: when the error list is present and every listed error is the
idempotent already-exists one, `load_schema` returns the entire parsed
response unchanged — the tolerated errors stay visible under its
`errors` field. -/
theorem loadSchema_returns_full_response (resp : SchemaResponse) (errs : List SchemaError)
    (h1 : resp.errors = some errs)
    (h2 : ∀ e ∈ errs, containsSub "schema type already exists" e.message = true) :
    load_schema resp = Except.ok resp := by
  simp [load_schema, h1, checkSchemaErrors_ok_of_all errs h2, Except.map]

/-- Witness for C9: a concrete response with two tolerated errors is
returned whole, errors included. -/
theorem loadSchema_returns_full_response_witness :
    load_schema ⟨some "payload", some [⟨"schema type already exists: A"⟩,
        ⟨"schema type already exists: B"⟩]⟩
      = Except.ok ⟨some "payload", some [⟨"schema type already exists: A"⟩,
        ⟨"schema type already exists: B"⟩]⟩ :=
  loadSchema_returns_full_response _ _ rfl (by decide)

/-- C10: no builder or replicator operation mutates its caller-supplied
argument: the document mapping handed to `create_doc`,
`dict_to_create_query` and `dict_to_update_query`, and the collections
list handed to `set_replicator`, hold their original values after the
call — each body only reads them. -/
theorem operations_preserve_arguments (typename schema_type : String) (d : Doc)
    (collections : List String) (respPeerID : List Nat) :
    (create_doc_effect typename d).2 = d ∧
    (dict_to_create_query_effect schema_type d).2 = d ∧
    (dict_to_update_query_effect schema_type d).2 = d ∧
    (set_replicator_effect collections respPeerID).2 = collections :=
  ⟨rfl, rfl, rfl, rfl⟩
